import Mathlib

/-!
Shallow embedding of the authentication, session, CSRF and rate-limiting
subsystem of lightsail-panel (the auth module: `checkRateLimit`,
`recordFailedAttempt`, `clearRateLimit`, `checkIPAllowlist`, `signValue`,
`verifySignedValue`, `login`, `logout`, `validateSession`, `validateCSRF`).

Modelling conventions:
- Timestamps (`Date.now()` values, milliseconds) are `Int`; every place the
  source reads the clock is an explicit parameter.
- The in-memory `Map` of rate-limit entries is an association list
  `List (String × RateEntry)`; `Map.get`/`set`/`delete` become
  `rlookup`/`rset`/`rdelete`.
- The HMAC-SHA256 digest is an uninterpreted function
  `hmac : List Char → List Char`; signed values are character lists so that
  the `lastIndexOf(".")`/`slice` logic of `verifySignedValue` is explicit.
- Randomness (`randomUUID`, `randomBytes`) and the bcrypt comparison are
  oracle parameters of `login`.
-/

namespace LightsailPanel

/-- `LOGIN_MAX_ATTEMPTS = 5` (soft limit per window). -/
def LOGIN_MAX_ATTEMPTS : Int := 5

/-- `LOGIN_WINDOW_MS = 15 * 60 * 1000` (15 minutes). -/
def LOGIN_WINDOW_MS : Int := 15 * 60 * 1000

/-- `LOCKOUT_ATTEMPTS = 10` (hard lockout threshold). -/
def LOCKOUT_ATTEMPTS : Nat := 10

/-- `LOCKOUT_DURATION_MS = 30 * 60 * 1000` (30 minutes). -/
def LOCKOUT_DURATION_MS : Int := 30 * 60 * 1000

/-- `SESSION_MAX_AGE_MS = 24 * 60 * 60 * 1000` (24 hours). -/
def SESSION_MAX_AGE_MS : Int := 24 * 60 * 60 * 1000

/-- One entry of the per-IP rate-limit table (`interface RateEntry`). -/
structure RateEntry where
  attempts : Nat
  firstAttempt : Int
  lockedUntil : Int
deriving DecidableEq, Repr

/-- The in-memory `rateLimitMap`, as an association list keyed by IP. -/
abbrev RateMap := List (String × RateEntry)

/-- `rateLimitMap.get(ip)`. -/
def rlookup (m : RateMap) (k : String) : Option RateEntry :=
  (m.find? (fun p => p.1 == k)).map (·.2)

/-- `rateLimitMap.delete(ip)`. -/
def rdelete (m : RateMap) (k : String) : RateMap :=
  m.filter (fun p => !(p.1 == k))

/-- `rateLimitMap.set(ip, e)` (replaces any entry under the same key). -/
def rset (m : RateMap) (k : String) (v : RateEntry) : RateMap :=
  (k, v) :: rdelete m k

/-- The record returned by `checkRateLimit`. -/
structure RateCheckResult where
  allowed : Bool
  remaining : Int
  retryAfterMs : Int
deriving DecidableEq, Repr

/-- `checkRateLimit(ip)`: the returned record together with the (possibly
pruned) table — the window-expired branch deletes the entry. -/
def checkRateLimit (now : Int) (m : RateMap) (ip : String) :
    RateCheckResult × RateMap :=
  match rlookup m ip with
  | none => (⟨true, LOGIN_MAX_ATTEMPTS, 0⟩, m)
  | some entry =>
    if entry.lockedUntil > now then
      (⟨false, 0, entry.lockedUntil - now⟩, m)
    else if now - entry.firstAttempt > LOGIN_WINDOW_MS then
      (⟨true, LOGIN_MAX_ATTEMPTS, 0⟩, rdelete m ip)
    else
      let remaining : Int := LOGIN_MAX_ATTEMPTS - entry.attempts
      (⟨decide (remaining > 0), max 0 remaining, 0⟩, m)

/-- `recordFailedAttempt(ip)`. -/
def recordFailedAttempt (now : Int) (m : RateMap) (ip : String) : RateMap :=
  match rlookup m ip with
  | none => rset m ip ⟨1, now, 0⟩
  | some entry =>
    if now - entry.firstAttempt > LOGIN_WINDOW_MS then
      rset m ip ⟨1, now, 0⟩
    else
      let attempts := entry.attempts + 1
      let lockedUntil :=
        if attempts ≥ LOCKOUT_ATTEMPTS then now + LOCKOUT_DURATION_MS
        else entry.lockedUntil
      rset m ip ⟨attempts, entry.firstAttempt, lockedUntil⟩

/-- `clearRateLimit(ip)`. -/
def clearRateLimit (m : RateMap) (ip : String) : RateMap :=
  rdelete m ip

/-- The textual /24-style base of a CIDR allowlist entry:
`allowed.split("/")[0].split(".").slice(0, 3).join(".")`. -/
def cidr24 (allowed : String) : String :=
  String.intercalate "." (((allowed.splitOn "/").headD "").splitOn "." |>.take 3)

/-- `checkIPAllowlist(ip)`, with the configured `ALLOWED_IPS` list explicit. -/
def checkIPAllowlist (allowedIPs : List String) (ip : String) : Bool :=
  if allowedIPs.isEmpty then true
  else allowedIPs.any fun allowed =>
    if allowed.contains '/' then ip.startsWith (cidr24 allowed)
    else ip == allowed

/-- `signValue(value)`: `value + "." + hmac(value)`. -/
def signValue (hmac : List Char → List Char) (value : List Char) : List Char :=
  value ++ '.' :: hmac value

/-- Index of the last `'.'` in a character list (`signed.lastIndexOf(".")`,
with `-1` rendered as `none`). -/
def lastDotIdx : List Char → Option Nat
  | [] => none
  | c :: rest =>
    match lastDotIdx rest with
    | some j => some (j + 1)
    | none => if c = '.' then some 0 else none

/-- `verifySignedValue(signed)`. -/
def verifySignedValue (hmac : List Char → List Char) (signed : List Char) :
    Option (List Char) :=
  match lastDotIdx signed with
  | none => none
  | some i =>
    let value := signed.take i
    if signValue hmac value = signed then some value else none

/-- `interface Session`. -/
structure Session where
  id : List Char
  csrfToken : List Char
  createdAt : Int
  lastActivity : Int
  ip : String
deriving DecidableEq, Repr

/-- The module-level mutable state: `rateLimitMap` and `activeSession`. -/
structure AuthState where
  rate : RateMap
  session : Option Session
deriving DecidableEq, Repr

/-- The record returned by `login`. -/
structure LoginResult where
  success : Bool
  error : Option String
  remaining : Option Int
  retryAfterMs : Option Int
deriving DecidableEq, Repr

/-- `login(password)`. Oracle parameters: `allow` is the configured
`ALLOWED_IPS`; `hashConfigured` is whether `PANEL_PASSWORD_HASH` is non-empty;
`pwValid` is the outcome of `bcrypt.compare`; `sid`/`csrf` are the freshly
generated `randomUUID`/`randomBytes` values; `t1`,`t2`,`t2b`,`t3`,`t4` are the
successive `Date.now()` readings (inside the first `checkRateLimit`, inside
`recordFailedAttempt`, inside the second `checkRateLimit`, and the two reads
used for `createdAt` and `lastActivity`). -/
def login (allow : List String) (hashConfigured pwValid : Bool) (ip : String)
    (sid csrf : List Char) (t1 t2 t2b t3 t4 : Int) (s : AuthState) :
    LoginResult × AuthState :=
  if !checkIPAllowlist allow ip then
    (⟨false, some "Access denied", none, none⟩, s)
  else
    let rc := checkRateLimit t1 s.rate ip
    if !rc.1.allowed then
      (⟨false, some "Too many attempts. Try again later.", some 0,
        some rc.1.retryAfterMs⟩, { s with rate := rc.2 })
    else if !hashConfigured then
      (⟨false, some "Panel not configured. Run setup.sh first.", none, none⟩,
        { s with rate := rc.2 })
    else if !pwValid then
      let m2 := recordFailedAttempt t2 rc.2 ip
      let updated := checkRateLimit t2b m2 ip
      (⟨false, some "Invalid password", some updated.1.remaining, none⟩,
        { s with rate := updated.2 })
    else
      (⟨true, none, none, none⟩,
        { rate := clearRateLimit rc.2 ip,
          session := some ⟨sid, csrf, t3, t4, ip⟩ })

/-- `logout()` (the part acting on the module state). -/
def logout (s : AuthState) : AuthState :=
  { s with session := none }

/-- The record returned by `validateSession`. -/
structure SessionCheck where
  valid : Bool
  ip : String
deriving DecidableEq, Repr

/-- `validateSession()`. `cookie` is the presented `lsp_session` cookie value
(`none` when absent), `now` the `Date.now()` reading at the expiry check. -/
def validateSession (hmac : List Char → List Char) (allow : List String)
    (ip : String) (cookie : Option (List Char)) (now : Int) (s : AuthState) :
    SessionCheck × AuthState :=
  if !checkIPAllowlist allow ip then (⟨false, ip⟩, s)
  else
    match cookie with
    | none => (⟨false, ip⟩, s)
    | some signed =>
      match verifySignedValue hmac signed with
      | none => (⟨false, ip⟩, s)
      | some sessionId =>
        match s.session with
        | none => (⟨false, ip⟩, s)
        | some sess =>
          if sess.id ≠ sessionId then (⟨false, ip⟩, s)
          else if now - sess.createdAt > SESSION_MAX_AGE_MS then
            (⟨false, ip⟩, { s with session := none })
          else
            (⟨true, ip⟩, { s with session := some { sess with lastActivity := now } })

/-- `validateCSRF()`. `hdr` is the presented `x-csrf-token` header (`none`
when absent; the source treats the empty string like absence via JS
falsiness). -/
def validateCSRF (hdr : Option (List Char)) (s : AuthState) : Bool :=
  match s.session with
  | none => false
  | some sess =>
    match hdr with
    | none => false
    | some t => if t.isEmpty then false else t == sess.csrfToken

/-- States reachable from the initial module state (empty table, no session)
through the exported operations `login`, `logout`, `validateSession`. -/
inductive Reachable : AuthState → Prop
  | init : Reachable ⟨[], none⟩
  | loginStep (allow : List String) (hashConfigured pwValid : Bool)
      (ip : String) (sid csrf : List Char) (t1 t2 t2b t3 t4 : Int)
      (s : AuthState) : Reachable s →
      Reachable (login allow hashConfigured pwValid ip sid csrf t1 t2 t2b t3 t4 s).2
  | logoutStep (s : AuthState) : Reachable s → Reachable (logout s)
  | validateStep (hmac : List Char → List Char) (allow : List String)
      (ip : String) (cookie : Option (List Char)) (now : Int)
      (s : AuthState) : Reachable s →
      Reachable (validateSession hmac allow ip cookie now s).2

/-- Fold of `recordFailedAttempt` over a list of timestamps (a sequence of
failed login attempts from the same address). -/
def failAt (times : List Int) (ip : String) (m : RateMap) : RateMap :=
  times.foldl (fun acc t => recordFailedAttempt t acc ip) m

/-- The rate-limit table invariant of claim C1. -/
def RateOK (m : RateMap) : Prop :=
  ∀ p ∈ m, p.2.attempts ≤ 5 ∧ p.2.lockedUntil = 0

/-- The allowlist predicate as the spec/claim words it: empty list means the
feature is off; otherwise an exact literal match or, for a CIDR entry, a
textual /24-style base-address match. -/
def ipAllowedSpec (allowedIPs : List String) (ip : String) : Prop :=
  allowedIPs = [] ∨ ∃ e ∈ allowedIPs,
    (e.contains '/' = false ∧ ip = e) ∨
    (e.contains '/' = true ∧ ip.startsWith (cidr24 e) = true)

-- ---------------------------------------------------------------------------
-- Association-list lemmas
-- ---------------------------------------------------------------------------

theorem rlookup_rset (m : RateMap) (k : String) (v : RateEntry) :
    rlookup (rset m k v) k = some v := by
  simp [rlookup, rset, List.find?]

theorem rlookup_rdelete (m : RateMap) (k : String) :
    rlookup (rdelete m k) k = none := by
  simp only [rlookup, Option.map_eq_none']
  rw [List.find?_eq_none]
  intro p hp
  simp only [rdelete] at hp
  have hpred := (List.mem_filter.mp hp).2
  simpa using hpred

theorem rlookup_some_mem {m : RateMap} {k : String} {e : RateEntry}
    (h : rlookup m k = some e) : (k, e) ∈ m := by
  simp only [rlookup, Option.map_eq_some'] at h
  obtain ⟨p, hfind, hsnd⟩ := h
  have hmem := List.mem_of_find?_eq_some hfind
  have hpred := List.find?_some hfind
  have hfst : p.1 = k := by simpa using hpred
  have : p = (k, e) := by
    cases p
    simp only at hfst hsnd
    simp [hfst, hsnd]
  rwa [this] at hmem

theorem mem_rdelete {m : RateMap} {k : String} {p : String × RateEntry}
    (h : p ∈ rdelete m k) : p ∈ m :=
  List.mem_of_mem_filter h

theorem mem_rset {m : RateMap} {k : String} {v : RateEntry}
    {p : String × RateEntry} (h : p ∈ rset m k v) : p = (k, v) ∨ p ∈ m := by
  rcases List.mem_cons.mp h with h1 | h2
  · exact Or.inl h1
  · exact Or.inr (mem_rdelete h2)

-- ---------------------------------------------------------------------------
-- Rate-limiter lemmas
-- ---------------------------------------------------------------------------

theorem recordFailedAttempt_in_window {m : RateMap} {ip : String}
    {e : RateEntry} {now : Int} (h : rlookup m ip = some e)
    (hw : now - e.firstAttempt ≤ LOGIN_WINDOW_MS)
    (hlt : e.attempts + 1 < LOCKOUT_ATTEMPTS) :
    recordFailedAttempt now m ip
      = rset m ip ⟨e.attempts + 1, e.firstAttempt, e.lockedUntil⟩ := by
  unfold recordFailedAttempt
  rw [h]
  simp [not_lt.mpr hw, not_le.mpr hlt]

theorem checkRateLimit_none {now : Int} {m : RateMap} {ip : String}
    (h : rlookup m ip = none) :
    checkRateLimit now m ip = (⟨true, LOGIN_MAX_ATTEMPTS, 0⟩, m) := by
  unfold checkRateLimit
  rw [h]

theorem checkRateLimit_locked {now : Int} {m : RateMap} {ip : String}
    {e : RateEntry} (h : rlookup m ip = some e) (h1 : now < e.lockedUntil) :
    checkRateLimit now m ip = (⟨false, 0, e.lockedUntil - now⟩, m) := by
  unfold checkRateLimit
  rw [h]
  simp [h1]

theorem checkRateLimit_window_expired {now : Int} {m : RateMap} {ip : String}
    {e : RateEntry} (h : rlookup m ip = some e) (h1 : ¬ now < e.lockedUntil)
    (h2 : LOGIN_WINDOW_MS < now - e.firstAttempt) :
    checkRateLimit now m ip = (⟨true, LOGIN_MAX_ATTEMPTS, 0⟩, rdelete m ip) := by
  unfold checkRateLimit
  rw [h]
  simp [h1, h2]

theorem checkRateLimit_in_window {now : Int} {m : RateMap} {ip : String}
    {e : RateEntry} (h : rlookup m ip = some e) (h1 : ¬ now < e.lockedUntil)
    (h2 : ¬ LOGIN_WINDOW_MS < now - e.firstAttempt) :
    checkRateLimit now m ip
      = (⟨decide (0 < LOGIN_MAX_ATTEMPTS - (e.attempts : Int)),
          max 0 (LOGIN_MAX_ATTEMPTS - (e.attempts : Int)), 0⟩, m) := by
  unfold checkRateLimit
  rw [h]
  simp [h1, h2]

theorem checkRateLimit_map_cases (now : Int) (m : RateMap) (ip : String) :
    (checkRateLimit now m ip).2 = m ∨ (checkRateLimit now m ip).2 = rdelete m ip := by
  rcases hl : rlookup m ip with _ | e
  · rw [checkRateLimit_none hl]
    exact Or.inl rfl
  · by_cases h1 : now < e.lockedUntil
    · rw [checkRateLimit_locked hl h1]
      exact Or.inl rfl
    · by_cases h2 : LOGIN_WINDOW_MS < now - e.firstAttempt
      · rw [checkRateLimit_window_expired hl h1 h2]
        exact Or.inr rfl
      · rw [checkRateLimit_in_window hl h1 h2]
        exact Or.inl rfl

theorem checkRateLimit_not_allowed_map {now : Int} {m : RateMap} {ip : String}
    (h : (checkRateLimit now m ip).1.allowed = false) :
    (checkRateLimit now m ip).2 = m := by
  rcases hl : rlookup m ip with _ | e
  · rw [checkRateLimit_none hl]
  · by_cases h1 : now < e.lockedUntil
    · rw [checkRateLimit_locked hl h1]
    · by_cases h2 : LOGIN_WINDOW_MS < now - e.firstAttempt
      · rw [checkRateLimit_window_expired hl h1 h2] at h
        simp at h
      · rw [checkRateLimit_in_window hl h1 h2]

theorem checkRateLimit_allowed_lookup {now : Int} {m : RateMap} {ip : String}
    (h : (checkRateLimit now m ip).1.allowed = true) :
    rlookup (checkRateLimit now m ip).2 ip = none
    ∨ ∃ e, rlookup (checkRateLimit now m ip).2 ip = some e ∧ e.attempts ≤ 4 := by
  rcases hl : rlookup m ip with _ | e
  · rw [checkRateLimit_none hl]
    exact Or.inl hl
  · by_cases h1 : now < e.lockedUntil
    · rw [checkRateLimit_locked hl h1] at h
      simp at h
    · by_cases h2 : LOGIN_WINDOW_MS < now - e.firstAttempt
      · rw [checkRateLimit_window_expired hl h1 h2]
        exact Or.inl (rlookup_rdelete m ip)
      · rw [checkRateLimit_in_window hl h1 h2]
        right
        refine ⟨e, hl, ?_⟩
        rw [checkRateLimit_in_window hl h1 h2] at h
        have hpos : (0:Int) < LOGIN_MAX_ATTEMPTS - e.attempts :=
          of_decide_eq_true h
        have hlt : (e.attempts : Int) < 5 := by
          simpa [LOGIN_MAX_ATTEMPTS] using hpos
        omega

-- ---------------------------------------------------------------------------
-- Claims C2, C3
-- ---------------------------------------------------------------------------

/-- Claim C2: `checkRateLimit` with no entry returns allowed with the full
budget of 5 and `retryAfterMs = 0`; with an unlocked entry inside the window
it returns `remaining = max 0 (5 - attempts)` and is allowed iff
`5 - attempts > 0`; and concretely, after 4 failures recorded inside the
window (from an empty table) it reports `allowed = true, remaining = 1`,
while after the 5th failure it reports `allowed = false, remaining = 0`. -/
theorem rateLimit_check_budget (m0 m : RateMap) (ip : String) (e : RateEntry)
    (now u1 u2 u3 u4 u5 tc : Int)
    (h2 : u2 - u1 ≤ LOGIN_WINDOW_MS) (h3 : u3 - u1 ≤ LOGIN_WINDOW_MS)
    (h4 : u4 - u1 ≤ LOGIN_WINDOW_MS) (h5 : u5 - u1 ≤ LOGIN_WINDOW_MS)
    (htc : tc - u1 ≤ LOGIN_WINDOW_MS) (htc0 : 0 ≤ tc) :
    (rlookup m0 ip = none →
      checkRateLimit now m0 ip = (⟨true, 5, 0⟩, m0))
    ∧ (rlookup m ip = some e → e.lockedUntil ≤ now →
        now - e.firstAttempt ≤ LOGIN_WINDOW_MS →
        ((checkRateLimit now m ip).1.allowed = true ↔ 0 < (5:Int) - e.attempts)
        ∧ (checkRateLimit now m ip).1.remaining = max 0 ((5:Int) - e.attempts)
        ∧ (checkRateLimit now m ip).1.retryAfterMs = 0)
    ∧ (checkRateLimit tc (failAt [u1, u2, u3, u4] ip []) ip).1 = ⟨true, 1, 0⟩
    ∧ (checkRateLimit tc (failAt [u1, u2, u3, u4, u5] ip []) ip).1 = ⟨false, 0, 0⟩ := by
  have he1 : recordFailedAttempt u1 [] ip = rset [] ip ⟨1, u1, 0⟩ := rfl
  have hl1 : rlookup (recordFailedAttempt u1 [] ip) ip = some ⟨1, u1, 0⟩ := by
    rw [he1]; exact rlookup_rset _ _ _
  have he2 : recordFailedAttempt u2 (recordFailedAttempt u1 [] ip) ip
      = rset (recordFailedAttempt u1 [] ip) ip ⟨2, u1, 0⟩ :=
    recordFailedAttempt_in_window hl1 (by simpa using h2) (by norm_num [LOCKOUT_ATTEMPTS])
  have hl2 : rlookup (recordFailedAttempt u2 (recordFailedAttempt u1 [] ip) ip) ip
      = some ⟨2, u1, 0⟩ := by rw [he2]; exact rlookup_rset _ _ _
  have he3 : recordFailedAttempt u3 (recordFailedAttempt u2 (recordFailedAttempt u1 [] ip) ip) ip
      = rset (recordFailedAttempt u2 (recordFailedAttempt u1 [] ip) ip) ip ⟨3, u1, 0⟩ :=
    recordFailedAttempt_in_window hl2 (by simpa using h3) (by norm_num [LOCKOUT_ATTEMPTS])
  have hl3 : rlookup (recordFailedAttempt u3 (recordFailedAttempt u2 (recordFailedAttempt u1 [] ip) ip) ip) ip
      = some ⟨3, u1, 0⟩ := by rw [he3]; exact rlookup_rset _ _ _
  have he4 : recordFailedAttempt u4 (recordFailedAttempt u3 (recordFailedAttempt u2 (recordFailedAttempt u1 [] ip) ip) ip) ip
      = rset (recordFailedAttempt u3 (recordFailedAttempt u2 (recordFailedAttempt u1 [] ip) ip) ip) ip ⟨4, u1, 0⟩ :=
    recordFailedAttempt_in_window hl3 (by simpa using h4) (by norm_num [LOCKOUT_ATTEMPTS])
  have hl4 : rlookup (recordFailedAttempt u4 (recordFailedAttempt u3 (recordFailedAttempt u2 (recordFailedAttempt u1 [] ip) ip) ip) ip) ip
      = some ⟨4, u1, 0⟩ := by rw [he4]; exact rlookup_rset _ _ _
  have he5 : recordFailedAttempt u5 (recordFailedAttempt u4 (recordFailedAttempt u3 (recordFailedAttempt u2 (recordFailedAttempt u1 [] ip) ip) ip) ip) ip
      = rset (recordFailedAttempt u4 (recordFailedAttempt u3 (recordFailedAttempt u2 (recordFailedAttempt u1 [] ip) ip) ip) ip) ip ⟨5, u1, 0⟩ :=
    recordFailedAttempt_in_window hl4 (by simpa using h5) (by norm_num [LOCKOUT_ATTEMPTS])
  have hl5 : rlookup (recordFailedAttempt u5 (recordFailedAttempt u4 (recordFailedAttempt u3 (recordFailedAttempt u2 (recordFailedAttempt u1 [] ip) ip) ip) ip) ip) ip
      = some ⟨5, u1, 0⟩ := by rw [he5]; exact rlookup_rset _ _ _
  refine ⟨?_, ?_, ?_, ?_⟩
  · intro hnone
    unfold checkRateLimit
    rw [hnone]
    rfl
  · intro hsome hnl hwin
    unfold checkRateLimit
    rw [hsome]
    simp only [not_lt.mpr hnl, if_false, not_lt.mpr hwin]
    refine ⟨?_, by simp [LOGIN_MAX_ATTEMPTS], by simp⟩
    simp [LOGIN_MAX_ATTEMPTS]
  · show (checkRateLimit tc (recordFailedAttempt u4 (recordFailedAttempt u3 (recordFailedAttempt u2 (recordFailedAttempt u1 [] ip) ip) ip) ip) ip).1 = _
    unfold checkRateLimit
    rw [hl4]
    simp only [not_lt.mpr htc0, if_false, not_lt.mpr (by simpa using htc : tc - (⟨4, u1, 0⟩ : RateEntry).firstAttempt ≤ LOGIN_WINDOW_MS)]
    norm_num [LOGIN_MAX_ATTEMPTS]
  · show (checkRateLimit tc (recordFailedAttempt u5 (recordFailedAttempt u4 (recordFailedAttempt u3 (recordFailedAttempt u2 (recordFailedAttempt u1 [] ip) ip) ip) ip) ip) ip).1 = _
    unfold checkRateLimit
    rw [hl5]
    simp only [not_lt.mpr htc0, if_false, not_lt.mpr (by simpa using htc : tc - (⟨5, u1, 0⟩ : RateEntry).firstAttempt ≤ LOGIN_WINDOW_MS)]
    norm_num [LOGIN_MAX_ATTEMPTS]

/-- Witness for claim C2 at concrete inputs: empty table for the no-entry
part; table `[("a", ⟨2, 0, 0⟩)]` for the in-window part; failures at times
0, 1, 2, 3, 4 and check at time 10 for the scenario. -/
theorem rateLimit_check_budget_w :
    checkRateLimit 10 [] "a" = (⟨true, 5, 0⟩, [])
    ∧ (((checkRateLimit 10 [("a", ⟨2, 0, 0⟩)] "a").1.allowed = true
          ↔ 0 < (5:Int) - ((⟨2, 0, 0⟩ : RateEntry).attempts : Int))
        ∧ (checkRateLimit 10 [("a", ⟨2, 0, 0⟩)] "a").1.remaining
            = max 0 ((5:Int) - ((⟨2, 0, 0⟩ : RateEntry).attempts : Int))
        ∧ (checkRateLimit 10 [("a", ⟨2, 0, 0⟩)] "a").1.retryAfterMs = 0)
    ∧ (checkRateLimit 10 (failAt [0, 1, 2, 3] "a" []) "a").1 = ⟨true, 1, 0⟩
    ∧ (checkRateLimit 10 (failAt [0, 1, 2, 3, 4] "a" []) "a").1 = ⟨false, 0, 0⟩ := by
  have h := rateLimit_check_budget [] [("a", ⟨2, 0, 0⟩)] "a" ⟨2, 0, 0⟩ 10 0 1 2 3 4 10
    (by norm_num [LOGIN_WINDOW_MS]) (by norm_num [LOGIN_WINDOW_MS])
    (by norm_num [LOGIN_WINDOW_MS]) (by norm_num [LOGIN_WINDOW_MS])
    (by norm_num [LOGIN_WINDOW_MS]) (by norm_num)
  exact ⟨h.1 (by decide), h.2.1 (by decide) (by decide) (by norm_num [LOGIN_WINDOW_MS]),
    h.2.2.1, h.2.2.2⟩

/-- Claim C3: a lockout strictly in the future dominates: `checkRateLimit`
returns `allowed = false`, `remaining = 0`, `retryAfterMs = lockedUntil - now`
(and leaves the table untouched), with no hypothesis on the attempt window. -/
theorem rateLimit_lockout_priority (m : RateMap) (ip : String) (e : RateEntry)
    (now : Int) (hent : rlookup m ip = some e) (hlock : now < e.lockedUntil) :
    checkRateLimit now m ip = (⟨false, 0, e.lockedUntil - now⟩, m) := by
  unfold checkRateLimit
  rw [hent]
  simp [hlock]

/-- Witness for claim C3: entry locked until 100, checked at time 5 with the
window long expired (`firstAttempt = -10^9`). -/
theorem rateLimit_lockout_priority_w :
    rlookup [("a", ⟨3, -1000000000, 100⟩)] "a" = some ⟨3, -1000000000, 100⟩
    ∧ (5:Int) < 100
    ∧ checkRateLimit 5 [("a", ⟨3, -1000000000, 100⟩)] "a"
        = (⟨false, 0, 95⟩, [("a", ⟨3, -1000000000, 100⟩)]) :=
  ⟨by decide, by decide, by
    have h := rateLimit_lockout_priority [("a", ⟨3, -1000000000, 100⟩)] "a"
      ⟨3, -1000000000, 100⟩ 5 (by decide) (by decide)
    simpa using h⟩

-- ---------------------------------------------------------------------------
-- Signed-value lemmas
-- ---------------------------------------------------------------------------

theorem lastDotIdx_of_no_dot {t : List Char} (h : '.' ∉ t) :
    lastDotIdx t = none := by
  induction t with
  | nil => rfl
  | cons c rest ih =>
    have hc : c ≠ '.' := fun hc => h (hc ▸ List.mem_cons_self c rest)
    have ht : '.' ∉ rest := fun hm => h (List.mem_cons_of_mem c hm)
    simp [lastDotIdx, ih ht, hc]

theorem lastDotIdx_append_dot (v : List Char) {t : List Char} (h : '.' ∉ t) :
    lastDotIdx (v ++ '.' :: t) = some v.length := by
  induction v with
  | nil => simp [lastDotIdx, lastDotIdx_of_no_dot h]
  | cons c cs ih => simp [lastDotIdx, ih]

theorem verifySignedValue_signValue (hmac : List Char → List Char)
    (v : List Char) (h : '.' ∉ hmac v) :
    verifySignedValue hmac (signValue hmac v) = some v := by
  unfold verifySignedValue signValue
  rw [lastDotIdx_append_dot v h]
  simp [List.take_left, signValue]

theorem verifySignedValue_tampered (hmac : List Char → List Char)
    (v t : List Char) (hdot : '.' ∉ t) (hne : t ≠ hmac v) :
    verifySignedValue hmac (v ++ '.' :: t) = none := by
  unfold verifySignedValue
  rw [lastDotIdx_append_dot v hdot]
  have hcond : ¬ signValue hmac ((v ++ '.' :: t).take v.length) = v ++ '.' :: t := by
    rw [List.take_left]
    unfold signValue
    intro hcontra
    have := List.append_cancel_left hcontra
    exact hne (List.cons.inj this).2.symm
  simp only [hcond, if_false]

-- ---------------------------------------------------------------------------
-- Claim C4
-- ---------------------------------------------------------------------------

/-- Claim C4: with a correctly signed identifier matching the live session,
`validateSession` at time `t` succeeds iff `t - createdAt ≤ 24h`; on expiry
the session is cleared as a side effect; and the verdict does not depend on
`lastActivity` (the session with `lastActivity` replaced by any value yields
the same result record). -/
theorem session_absolute_lifetime (hmac : List Char → List Char)
    (allow : List String) (ip : String) (rate : RateMap) (sess : Session)
    (t la : Int) (hdot : '.' ∉ hmac sess.id)
    (hallow : checkIPAllowlist allow ip = true) :
    ((validateSession hmac allow ip (some (signValue hmac sess.id)) t
        ⟨rate, some sess⟩).1.valid = true
      ↔ t - sess.createdAt ≤ SESSION_MAX_AGE_MS)
    ∧ (t - sess.createdAt > SESSION_MAX_AGE_MS →
        validateSession hmac allow ip (some (signValue hmac sess.id)) t
          ⟨rate, some sess⟩ = (⟨false, ip⟩, ⟨rate, none⟩))
    ∧ (validateSession hmac allow ip (some (signValue hmac sess.id)) t
          ⟨rate, some { sess with lastActivity := la }⟩).1
        = (validateSession hmac allow ip (some (signValue hmac sess.id)) t
            ⟨rate, some sess⟩).1 := by
  have hv := verifySignedValue_signValue hmac sess.id hdot
  by_cases hexp : t - sess.createdAt > SESSION_MAX_AGE_MS
  · refine ⟨?_, ?_, ?_⟩
    · simp [validateSession, hallow, hv, hexp, not_le.mpr hexp]
    · intro _
      simp [validateSession, hallow, hv, hexp]
    · simp [validateSession, hallow, hv, hexp]
  · refine ⟨?_, fun hc => absurd hc hexp, ?_⟩
    · simp [validateSession, hallow, hv, hexp, not_lt.mp hexp]
    · simp [validateSession, hallow, hv, hexp]

/-- Witness for claim C4: a concrete session created at time 0, validated at
`SESSION_MAX_AGE_MS + 1` (expired by 1 ms), with a one-character digest. -/
theorem session_absolute_lifetime_w :
    '.' ∉ (fun (_ : List Char) => ['h']) ['s']
    ∧ checkIPAllowlist [] "1.2.3.4" = true
    ∧ (((validateSession (fun _ => ['h']) [] "1.2.3.4"
          (some (signValue (fun _ => ['h']) ['s'])) (SESSION_MAX_AGE_MS + 1)
          ⟨[], some ⟨['s'], ['k'], 0, 0, "1.2.3.4"⟩⟩).1.valid = true
        ↔ SESSION_MAX_AGE_MS + 1 - (0:Int) ≤ SESSION_MAX_AGE_MS)
      ∧ (SESSION_MAX_AGE_MS + 1 - (0:Int) > SESSION_MAX_AGE_MS →
          validateSession (fun _ => ['h']) [] "1.2.3.4"
            (some (signValue (fun _ => ['h']) ['s'])) (SESSION_MAX_AGE_MS + 1)
            ⟨[], some ⟨['s'], ['k'], 0, 0, "1.2.3.4"⟩⟩
            = (⟨false, "1.2.3.4"⟩, ⟨[], none⟩))
      ∧ (validateSession (fun _ => ['h']) [] "1.2.3.4"
            (some (signValue (fun _ => ['h']) ['s'])) (SESSION_MAX_AGE_MS + 1)
            ⟨[], some ⟨['s'], ['k'], 0, 77, "1.2.3.4"⟩⟩).1
          = (validateSession (fun _ => ['h']) [] "1.2.3.4"
              (some (signValue (fun _ => ['h']) ['s'])) (SESSION_MAX_AGE_MS + 1)
              ⟨[], some ⟨['s'], ['k'], 0, 0, "1.2.3.4"⟩⟩).1) :=
  ⟨by decide, rfl,
    session_absolute_lifetime (fun _ => ['h']) [] "1.2.3.4" []
      ⟨['s'], ['k'], 0, 0, "1.2.3.4"⟩ (SESSION_MAX_AGE_MS + 1) 77
      (by decide) rfl⟩

-- ---------------------------------------------------------------------------
-- Claim C5
-- ---------------------------------------------------------------------------

/-- Claim C5: `validateSession` yields the identical failure record
`{valid := false, ip}` for a missing cookie, for a cookie whose signature
suffix was tampered (any dot-free suffix different from the true digest), and
for a correctly signed identifier different from the live session's id. -/
theorem session_failure_indistinguishable (hmac : List Char → List Char)
    (allow : List String) (ip : String) (rate : RateMap) (sess : Session)
    (t : Int) (tam sid2 : List Char)
    (htdot : '.' ∉ tam) (htne : tam ≠ hmac sess.id)
    (hdot2 : '.' ∉ hmac sid2) (hneid : sid2 ≠ sess.id) :
    (validateSession hmac allow ip none t ⟨rate, some sess⟩).1 = ⟨false, ip⟩
    ∧ (validateSession hmac allow ip (some (sess.id ++ '.' :: tam)) t
        ⟨rate, some sess⟩).1 = ⟨false, ip⟩
    ∧ (validateSession hmac allow ip (some (signValue hmac sid2)) t
        ⟨rate, some sess⟩).1 = ⟨false, ip⟩ := by
  by_cases hal : checkIPAllowlist allow ip = true
  · refine ⟨?_, ?_, ?_⟩
    · simp [validateSession, hal]
    · simp [validateSession, hal,
        verifySignedValue_tampered hmac sess.id tam htdot htne]
    · simp [validateSession, hal,
        verifySignedValue_signValue hmac sid2 hdot2, Ne.symm hneid]
  · have hal' : checkIPAllowlist allow ip = false := by
      simpa using hal
    refine ⟨?_, ?_, ?_⟩ <;> simp [validateSession, hal']

/-- Witness for claim C5: session id `['s']`, digest function mapping
everything to `['h']`, tampered suffix `['x']`, stale id `['z']`. -/
theorem session_failure_indistinguishable_w :
    '.' ∉ (['x'] : List Char)
    ∧ (['x'] : List Char) ≠ ['h']
    ∧ (['z'] : List Char) ≠ ['s']
    ∧ (validateSession (fun _ => ['h']) [] "9.9.9.9" none 3
        ⟨[], some ⟨['s'], ['k'], 0, 0, "9.9.9.9"⟩⟩).1 = ⟨false, "9.9.9.9"⟩
    ∧ (validateSession (fun _ => ['h']) [] "9.9.9.9"
        (some (['s'] ++ '.' :: ['x'])) 3
        ⟨[], some ⟨['s'], ['k'], 0, 0, "9.9.9.9"⟩⟩).1 = ⟨false, "9.9.9.9"⟩
    ∧ (validateSession (fun _ => ['h']) [] "9.9.9.9"
        (some (signValue (fun _ => ['h']) ['z'])) 3
        ⟨[], some ⟨['s'], ['k'], 0, 0, "9.9.9.9"⟩⟩).1 = ⟨false, "9.9.9.9"⟩ := by
  have h := session_failure_indistinguishable (fun _ => ['h']) [] "9.9.9.9" []
    ⟨['s'], ['k'], 0, 0, "9.9.9.9"⟩ 3 ['x'] ['z']
    (by decide) (by decide) (by decide) (by decide)
  exact ⟨by decide, by decide, by decide, h.1, h.2.1, h.2.2⟩

-- ---------------------------------------------------------------------------
-- Claim C7
-- ---------------------------------------------------------------------------

/-- Claim C7: `validateCSRF` is false with no live session (any header), false
for an absent or empty header, and with a live session it is true exactly for
the session's own `csrfToken` (the generated token being non-empty). -/
theorem csrf_exact_match (rate : RateMap) (s : AuthState) (sess : Session)
    (t : List Char) (h0 : Option (List Char))
    (hs : s.session = some sess) (hck : sess.csrfToken ≠ []) :
    validateCSRF h0 ⟨rate, none⟩ = false
    ∧ validateCSRF none s = false
    ∧ validateCSRF (some []) s = false
    ∧ (validateCSRF (some t) s = true ↔ t = sess.csrfToken) := by
  obtain ⟨r0, s0⟩ := s
  simp only at hs
  subst hs
  refine ⟨rfl, rfl, rfl, ?_⟩
  simp only [validateCSRF]
  by_cases ht : t = []
  · subst ht
    simp [Ne.symm hck]
  · simp [List.isEmpty_iff, ht]

/-- Witness for claim C7 at a concrete session whose token is `['k']`. -/
theorem csrf_exact_match_w :
    validateCSRF (some ['k']) ⟨[], none⟩ = false
    ∧ validateCSRF none ⟨[], some ⟨['s'], ['k'], 0, 0, "a"⟩⟩ = false
    ∧ validateCSRF (some []) ⟨[], some ⟨['s'], ['k'], 0, 0, "a"⟩⟩ = false
    ∧ (validateCSRF (some ['k']) ⟨[], some ⟨['s'], ['k'], 0, 0, "a"⟩⟩ = true
        ↔ ['k'] = (⟨['s'], ['k'], 0, 0, "a"⟩ : Session).csrfToken) :=
  csrf_exact_match [] ⟨[], some ⟨['s'], ['k'], 0, 0, "a"⟩⟩ ⟨['s'], ['k'], 0, 0, "a"⟩
    ['k'] (some ['k']) rfl (by decide)

-- ---------------------------------------------------------------------------
-- Claim C10
-- ---------------------------------------------------------------------------

/-- Claim C10: `validateCSRF` never consults session age: with a live session
whose 24-hour lifetime is already exceeded at time `t` (and whose token, as
generated, is non-empty), presenting the exact `csrfToken` still validates,
even though `validateSession` at the same time `t` rejects and clears the
session — CSRF-rejection of expired sessions relies on `requireAuth` running
first. -/
theorem csrf_ignores_expiry (hmac : List Char → List Char)
    (allow : List String) (ip : String) (rate : RateMap) (sess : Session)
    (t : Int) (hck : sess.csrfToken ≠ [])
    (hexp : t - sess.createdAt > SESSION_MAX_AGE_MS)
    (hdot : '.' ∉ hmac sess.id)
    (hallow : checkIPAllowlist allow ip = true) :
    validateCSRF (some sess.csrfToken) ⟨rate, some sess⟩ = true
    ∧ validateSession hmac allow ip (some (signValue hmac sess.id)) t
        ⟨rate, some sess⟩ = (⟨false, ip⟩, ⟨rate, none⟩) := by
  constructor
  · have hie : sess.csrfToken.isEmpty = false := by
      simpa [List.isEmpty_iff] using hck
    simp [validateCSRF, hie]
  · simp [validateSession, hallow,
      verifySignedValue_signValue hmac sess.id hdot, hexp]

/-- Witness for claim C10: session created at time 0, checked at
`SESSION_MAX_AGE_MS + 1`. -/
theorem csrf_ignores_expiry_w :
    (⟨['s'], ['k'], 0, 0, "a"⟩ : Session).csrfToken ≠ []
    ∧ SESSION_MAX_AGE_MS + 1 - (0:Int) > SESSION_MAX_AGE_MS
    ∧ validateCSRF (some (⟨['s'], ['k'], 0, 0, "a"⟩ : Session).csrfToken)
        ⟨[], some ⟨['s'], ['k'], 0, 0, "a"⟩⟩ = true
    ∧ validateSession (fun _ => ['h']) [] "a"
        (some (signValue (fun _ => ['h']) ['s'])) (SESSION_MAX_AGE_MS + 1)
        ⟨[], some ⟨['s'], ['k'], 0, 0, "a"⟩⟩ = (⟨false, "a"⟩, ⟨[], none⟩) := by
  have h := csrf_ignores_expiry (fun _ => ['h']) [] "a" []
    ⟨['s'], ['k'], 0, 0, "a"⟩ (SESSION_MAX_AGE_MS + 1)
    (by decide) (by norm_num) (by decide) rfl
  exact ⟨by decide, by norm_num, h.1, h.2⟩

-- ---------------------------------------------------------------------------
-- Claim C6
-- ---------------------------------------------------------------------------

/-- Claim C6: a successful login unconditionally replaces the live session
(the state holds at most one session by construction — `session` is an
`Option`): after a second login issuing `sid2 ≠ S1.id`, the new state carries
exactly the new session, and `validateSession` presented with S1's correctly
signed identifier fails. -/
theorem single_session_replacement (hmac : List Char → List Char)
    (allow allow2 : List String) (ip ip2 : String) (rate : RateMap)
    (S1 : Session) (sid2 csrf2 : List Char) (t1 t2 t2b t3 t4 tv : Int)
    (hallow : checkIPAllowlist allow ip = true)
    (hrc : (checkRateLimit t1 rate ip).1.allowed = true)
    (hneid : sid2 ≠ S1.id) (hdot : '.' ∉ hmac S1.id) :
    (login allow true true ip sid2 csrf2 t1 t2 t2b t3 t4
        ⟨rate, some S1⟩).1.success = true
    ∧ (login allow true true ip sid2 csrf2 t1 t2 t2b t3 t4
        ⟨rate, some S1⟩).2.session = some ⟨sid2, csrf2, t3, t4, ip⟩
    ∧ (validateSession hmac allow2 ip2 (some (signValue hmac S1.id)) tv
        (login allow true true ip sid2 csrf2 t1 t2 t2b t3 t4
          ⟨rate, some S1⟩).2).1.valid = false := by
  have hlog : login allow true true ip sid2 csrf2 t1 t2 t2b t3 t4 ⟨rate, some S1⟩
      = (⟨true, none, none, none⟩,
          ⟨clearRateLimit (checkRateLimit t1 rate ip).2 ip,
            some ⟨sid2, csrf2, t3, t4, ip⟩⟩) := by
    simp [login, hallow, hrc]
  refine ⟨by rw [hlog], by rw [hlog], ?_⟩
  rw [hlog]
  by_cases hal2 : checkIPAllowlist allow2 ip2 = true
  · simp [validateSession, hal2,
      verifySignedValue_signValue hmac S1.id hdot, hneid]
  · have hal2' : checkIPAllowlist allow2 ip2 = false := by simpa using hal2
    simp [validateSession, hal2']

/-- Witness for claim C6: first session id `['s']`, fresh id `['n']`, empty
rate table, empty allowlist. -/
theorem single_session_replacement_w :
    checkIPAllowlist [] "a" = true
    ∧ (checkRateLimit 0 [] "a").1.allowed = true
    ∧ (['n'] : List Char) ≠ ['s']
    ∧ (login [] true true "a" ['n'] ['c'] 0 0 0 7 8
        ⟨[], some ⟨['s'], ['k'], 0, 0, "a"⟩⟩).1.success = true
    ∧ (login [] true true "a" ['n'] ['c'] 0 0 0 7 8
        ⟨[], some ⟨['s'], ['k'], 0, 0, "a"⟩⟩).2.session
        = some ⟨['n'], ['c'], 7, 8, "a"⟩
    ∧ (validateSession (fun _ => ['h']) [] "a"
        (some (signValue (fun _ => ['h']) ['s'])) 9
        (login [] true true "a" ['n'] ['c'] 0 0 0 7 8
          ⟨[], some ⟨['s'], ['k'], 0, 0, "a"⟩⟩).2).1.valid = false := by
  have h := single_session_replacement (fun _ => ['h']) [] [] "a" "a" []
    ⟨['s'], ['k'], 0, 0, "a"⟩ ['n'] ['c'] 0 0 0 7 8 9
    rfl (by decide) (by decide) (by decide)
  exact ⟨rfl, by decide, by decide, h.1, h.2.1, h.2.2⟩

-- ---------------------------------------------------------------------------
-- Claim C8
-- ---------------------------------------------------------------------------

/-- Claim C8: login's checks run in the fixed order
allowlist → rate limit → configuration → password, and a failing earlier
check short-circuits the rest. An allowlist rejection returns "Access denied"
with the state (hence the rate table) completely untouched; a rate-limit
rejection returns the rate error with the table untouched; an unset password
hash returns the distinct configuration error with the same result for every
value of `pwValid` (so no hash comparison can influence it) and without
consuming budget — the entry for the address is unchanged or removed (the
window-expiry prune inside `checkRateLimit`), never incremented. -/
theorem login_check_order (allowA : List String) (ipA : String)
    (allow : List String) (ip : String) (hc pv : Bool) (sid csrf : List Char)
    (t1 t2 t2b t3 t4 : Int) (sA sB sC : AuthState) :
    (checkIPAllowlist allowA ipA = false →
      login allowA hc pv ipA sid csrf t1 t2 t2b t3 t4 sA
        = (⟨false, some "Access denied", none, none⟩, sA))
    ∧ (checkIPAllowlist allow ip = true →
        (checkRateLimit t1 sB.rate ip).1.allowed = false →
        login allow hc pv ip sid csrf t1 t2 t2b t3 t4 sB
          = (⟨false, some "Too many attempts. Try again later.", some 0,
              some (checkRateLimit t1 sB.rate ip).1.retryAfterMs⟩, sB))
    ∧ (checkIPAllowlist allow ip = true →
        (checkRateLimit t1 sC.rate ip).1.allowed = true →
        login allow false pv ip sid csrf t1 t2 t2b t3 t4 sC
          = (⟨false, some "Panel not configured. Run setup.sh first.",
              none, none⟩,
              { sC with rate := (checkRateLimit t1 sC.rate ip).2 })
        ∧ (rlookup (checkRateLimit t1 sC.rate ip).2 ip = rlookup sC.rate ip
            ∨ rlookup (checkRateLimit t1 sC.rate ip).2 ip = none)) := by
  refine ⟨?_, ?_, ?_⟩
  · intro hfail
    simp [login, hfail]
  · intro hok hnot
    have hmap := checkRateLimit_not_allowed_map hnot
    simp [login, hok, hnot, hmap]
  · intro hok hal
    refine ⟨by simp [login, hok, hal], ?_⟩
    rcases checkRateLimit_map_cases t1 sC.rate ip with hm | hm
    · rw [hm]
      exact Or.inl rfl
    · rw [hm]
      exact Or.inr (rlookup_rdelete _ _)

theorem contains_slash_eq_false {s : String} (h : '/' ∉ s.data) :
    s.contains '/' = false := by
  rw [Bool.eq_false_iff]
  intro hc
  exact h ((String.contains_iff s '/').mp hc)

/-- Witness for claim C8, using the spec's scenario for the allowlist part
(allowlist `["10.0.0.5"]`, request from `10.0.0.6`), a locked entry for the
rate-limit part, and an allowed address with the hash unset for the
configuration part. -/
theorem login_check_order_w :
    login ["10.0.0.5"] true true "10.0.0.6" ['n'] ['c'] 50 50 50 50 50
        ⟨[], none⟩
      = (⟨false, some "Access denied", none, none⟩, ⟨[], none⟩)
    ∧ login [] true true "b" ['n'] ['c'] 50 50 50 50 50
        ⟨[("b", ⟨3, 0, 100⟩)], none⟩
      = (⟨false, some "Too many attempts. Try again later.", some 0,
          some (checkRateLimit 50 [("b", ⟨3, 0, 100⟩)] "b").1.retryAfterMs⟩,
          ⟨[("b", ⟨3, 0, 100⟩)], none⟩)
    ∧ (login [] false true "c" ['n'] ['c'] 50 50 50 50 50 ⟨[], none⟩
        = (⟨false, some "Panel not configured. Run setup.sh first.",
            none, none⟩,
            { (⟨[], none⟩ : AuthState) with
                rate := (checkRateLimit 50 ([] : RateMap) "c").2 })
        ∧ (rlookup (checkRateLimit 50 ([] : RateMap) "c").2 "c"
              = rlookup ([] : RateMap) "c"
            ∨ rlookup (checkRateLimit 50 ([] : RateMap) "c").2 "c" = none)) := by
  have hA := (login_check_order ["10.0.0.5"] "10.0.0.6" [] "x" true true
    ['n'] ['c'] 50 50 50 50 50 ⟨[], none⟩ ⟨[], none⟩ ⟨[], none⟩).1
  have hB := (login_check_order [] "x" [] "b" true true
    ['n'] ['c'] 50 50 50 50 50 ⟨[], none⟩ ⟨[("b", ⟨3, 0, 100⟩)], none⟩
    ⟨[], none⟩).2.1
  have hC := (login_check_order [] "x" [] "c" true true
    ['n'] ['c'] 50 50 50 50 50 ⟨[], none⟩ ⟨[], none⟩ ⟨[], none⟩).2.2
  have hfail : checkIPAllowlist ["10.0.0.5"] "10.0.0.6" = false := by
    have h1 : "10.0.0.5".contains '/' = false := contains_slash_eq_false (by decide)
    have h2 : ("10.0.0.6" == "10.0.0.5") = false := by decide
    simp [checkIPAllowlist, h1, h2]
  exact ⟨hA hfail, hB rfl (by decide), hC rfl (by decide)⟩

-- ---------------------------------------------------------------------------
-- Claim C9
-- ---------------------------------------------------------------------------

/-- Claim C9: `checkIPAllowlist` accepts everything when the configured list
is empty, and otherwise accepts exactly the addresses that equal a literal
entry or, for an entry containing "/", start textually with the first three
dotted octets of the entry's base address (the /24-style textual
approximation, applied whatever the actual CIDR length). -/
theorem allowlist_textual_match (l : List String) (ip : String) :
    checkIPAllowlist l ip = true ↔ ipAllowedSpec l ip := by
  unfold checkIPAllowlist ipAllowedSpec
  by_cases he : l.isEmpty
  · have hnil : l = [] := List.isEmpty_iff.mp he
    subst hnil
    simp
  · have he' : l.isEmpty = false := by simpa using he
    have hne : ¬ l = [] := by simpa [List.isEmpty_iff] using he
    simp only [he', Bool.false_eq_true, if_false, List.any_eq_true, hne,
      false_or]
    constructor
    · rintro ⟨e, he1, he2⟩
      refine ⟨e, he1, ?_⟩
      by_cases hc : e.contains '/'
      · right
        exact ⟨hc, by simpa [hc] using he2⟩
      · left
        have hc' : e.contains '/' = false := by simpa using hc
        have : (ip == e) = true := by simpa [hc'] using he2
        exact ⟨hc', by simpa using this⟩
    · rintro ⟨e, he1, he2 | he2⟩
      · exact ⟨e, he1, by simp [he2.1, he2.2]⟩
      · exact ⟨e, he1, by simp [he2.1, he2.2]⟩

-- ---------------------------------------------------------------------------
-- Claim C1
-- ---------------------------------------------------------------------------

theorem RateOK_rset {m : RateMap} {k : String} {v : RateEntry}
    (h : RateOK m) (hv : v.attempts ≤ 5 ∧ v.lockedUntil = 0) :
    RateOK (rset m k v) := by
  intro p hp
  rcases mem_rset hp with h1 | h2
  · rw [h1]
    exact hv
  · exact h p h2

theorem RateOK_rdelete {m : RateMap} {k : String} (h : RateOK m) :
    RateOK (rdelete m k) :=
  fun p hp => h p (mem_rdelete hp)

theorem RateOK_check {now : Int} {m : RateMap} {ip : String} (h : RateOK m) :
    RateOK (checkRateLimit now m ip).2 := by
  rcases checkRateLimit_map_cases now m ip with hm | hm
  · rw [hm]
    exact h
  · rw [hm]
    exact RateOK_rdelete h

theorem recordFailedAttempt_fresh_none {now : Int} {m : RateMap} {ip : String}
    (h : rlookup m ip = none) :
    recordFailedAttempt now m ip = rset m ip ⟨1, now, 0⟩ := by
  unfold recordFailedAttempt
  rw [h]

theorem recordFailedAttempt_fresh_expired {now : Int} {m : RateMap}
    {ip : String} {e : RateEntry} (h : rlookup m ip = some e)
    (hw : LOGIN_WINDOW_MS < now - e.firstAttempt) :
    recordFailedAttempt now m ip = rset m ip ⟨1, now, 0⟩ := by
  unfold recordFailedAttempt
  rw [h]
  simp [hw]

theorem RateOK_record {now : Int} {m : RateMap} {ip : String} (h : RateOK m)
    (hgood : rlookup m ip = none ∨ ∃ e, rlookup m ip = some e ∧ e.attempts ≤ 4) :
    RateOK (recordFailedAttempt now m ip) := by
  rcases hl : rlookup m ip with _ | e
  · rw [recordFailedAttempt_fresh_none hl]
    exact RateOK_rset h ⟨by norm_num, rfl⟩
  · by_cases hw : LOGIN_WINDOW_MS < now - e.firstAttempt
    · rw [recordFailedAttempt_fresh_expired hl hw]
      exact RateOK_rset h ⟨by norm_num, rfl⟩
    · rcases hgood with hnone | ⟨e2, hsome, hb⟩
      · rw [hl] at hnone
        cases hnone
      · rw [hl] at hsome
        cases Option.some.inj hsome
        have hlock : e.lockedUntil = 0 := (h _ (rlookup_some_mem hl)).2
        have hlt : e.attempts + 1 < LOCKOUT_ATTEMPTS := by
          simp only [LOCKOUT_ATTEMPTS]
          omega
        rw [recordFailedAttempt_in_window hl (not_lt.mp hw) hlt]
        refine RateOK_rset h ⟨?_, hlock⟩
        show e.attempts + 1 ≤ 5
        omega

theorem RateOK_login (allow : List String) (hc pv : Bool) (ip : String)
    (sid csrf : List Char) (t1 t2 t2b t3 t4 : Int) {s : AuthState}
    (h : RateOK s.rate) :
    RateOK (login allow hc pv ip sid csrf t1 t2 t2b t3 t4 s).2.rate := by
  cases hb : checkIPAllowlist allow ip with
  | false => simpa [login, hb] using h
  | true =>
    by_cases hrc : (checkRateLimit t1 s.rate ip).1.allowed = true
    · cases hc with
      | false =>
        have h1 : RateOK (checkRateLimit t1 s.rate ip).2 := RateOK_check h
        simpa [login, hb, hrc] using h1
      | true =>
        cases pv with
        | false =>
          have h1 : RateOK (checkRateLimit t1 s.rate ip).2 := RateOK_check h
          have h2 : RateOK
              (recordFailedAttempt t2 (checkRateLimit t1 s.rate ip).2 ip) :=
            RateOK_record h1 (checkRateLimit_allowed_lookup hrc)
          have h3 : RateOK (checkRateLimit t2b
              (recordFailedAttempt t2 (checkRateLimit t1 s.rate ip).2 ip)
              ip).2 := RateOK_check h2
          simpa [login, hb, hrc] using h3
        | true =>
          have h1 : RateOK (checkRateLimit t1 s.rate ip).2 := RateOK_check h
          simpa [login, hb, hrc, clearRateLimit] using RateOK_rdelete h1
    · have hrc' : (checkRateLimit t1 s.rate ip).1.allowed = false := by
        simpa using hrc
      have h1 : RateOK (checkRateLimit t1 s.rate ip).2 := RateOK_check h
      simpa [login, hb, hrc'] using h1

theorem validateSession_rate (hmac : List Char → List Char)
    (allow : List String) (ip : String) (cookie : Option (List Char))
    (now : Int) (s : AuthState) :
    (validateSession hmac allow ip cookie now s).2.rate = s.rate := by
  unfold validateSession
  repeat' split
  all_goals rfl

/-- Claim C1: from the empty module state, every state reachable through the
exported operations `login`, `logout`, `validateSession` keeps every
rate-limit entry at `attempts ≤ 5` and `lockedUntil = 0`: `login` records a
failure only after `checkRateLimit` allowed the attempt (entry absent or
`attempts ≤ 4`), so the counter never reaches the lockout threshold of 10 and
the lockout branch of `recordFailedAttempt` never fires. -/
theorem rateLimit_reachable_invariant :
    ∀ s : AuthState, Reachable s → RateOK s.rate := by
  intro s h
  induction h with
  | init =>
    intro p hp
    cases hp
  | loginStep allow hc pv ip sid csrf t1 t2 t2b t3 t4 s hs ih =>
    exact RateOK_login allow hc pv ip sid csrf t1 t2 t2b t3 t4 ih
  | logoutStep s hs ih =>
    exact ih
  | validateStep hmac allow ip cookie now s hs ih =>
    rw [validateSession_rate]
    exact ih

/-- Witness for claim C1: the state after one failed login from the initial
state is reachable, and the theorem yields its invariant. -/
theorem rateLimit_reachable_invariant_w :
    Reachable (login [] true false "a" ['n'] ['c'] 0 0 0 0 0 ⟨[], none⟩).2
    ∧ RateOK (login [] true false "a" ['n'] ['c'] 0 0 0 0 0 ⟨[], none⟩).2.rate :=
  ⟨Reachable.loginStep [] true false "a" ['n'] ['c'] 0 0 0 0 0 ⟨[], none⟩
      Reachable.init,
    rateLimit_reachable_invariant _
      (Reachable.loginStep [] true false "a" ['n'] ['c'] 0 0 0 0 0 ⟨[], none⟩
        Reachable.init)⟩

end LightsailPanel
